import Mathlib

/-!
Verification of the fitness-tracker program (`homework.py`).

The program is embedded shallowly: Python floats become rationals (ℚ),
runtime exceptions become an explicit `PyError` sum carried by `Except`,
and Python's `None` (the value returned by the base class calorie method,
which has an empty body) becomes `Option.none`.  Each Python class is a
Lean structure; inherited methods are reproduced per class exactly as the
dynamic dispatch of the source resolves them.
-/

namespace FitnessTracker

/-- Runtime errors the Python program can raise, as observed in the source:
division of a float by zero raises `ZeroDivisionError`; calling the `None`
returned by `dict.get` on an unknown key raises
`TypeError: NoneType object is not callable` (an opaque message that never
mentions the workout-type code); unpacking a wrong-length argument list into
a constructor raises a `TypeError` about arity; formatting `None` with a
float format spec raises `TypeError: unsupported format string`. -/
inductive PyError where
  | zeroDivisionError : PyError
  | noneNotCallable : PyError
  | arityTypeError : PyError
  | formatNoneTypeError : PyError
  deriving DecidableEq

/-- `InfoMessage.__init__`: the five fields stored by the summary object.
The `calories` field is an `Option` because the base class
`Training.get_spent_calories` returns `None`, which flows into this field
unchecked. -/
structure InfoMessage where
  training_type : String
  duration : ℚ
  distance : ℚ
  speed : ℚ
  calories : Option ℚ
  deriving DecidableEq

/-- Three decimal digits of a natural number below 1000, most significant
first; models the fractional digits produced by the format spec `.3f`. -/
def pad3 (m : Nat) : String :=
  String.mk [Nat.digitChar (m / 100 % 10), Nat.digitChar (m / 10 % 10), Nat.digitChar (m % 10)]

/-- The three digits printed after the decimal point by `.3f`. -/
def frac3 (q : ℚ) : String :=
  pad3 ((round (q * 1000)).natAbs % 1000)

/-- The sign character and integer digits printed by the format spec
` .3f`: a leading space for a non-negative value, a minus sign otherwise. -/
def intPart3 (q : ℚ) : String :=
  (if round (q * 1000) < 0 then "-" else " ") ++ toString ((round (q * 1000)).natAbs / 1000)

/-- Python `format(q, " .3f")`: the value rounded to three decimal places,
always printed with exactly three digits after the point. -/
def fmt3 (q : ℚ) : String :=
  intPart3 q ++ "." ++ frac3 q

/-- `InfoMessage.get_message`: the f-string of the source, with each numeric
field rendered through ` .3f`.  When `calories` holds Python `None`, the
f-string raises `TypeError` at the calories field. -/
def InfoMessage.get_message (m : InfoMessage) : Except PyError String :=
  match m.calories with
  | none => .error .formatNoneTypeError
  | some c =>
      .ok ("Тип тренировки: " ++ m.training_type ++ "; Длительность:" ++ fmt3 m.duration
        ++ " ч.; Дистанция:" ++ fmt3 m.distance ++ " км; Ср. скорость:" ++ fmt3 m.speed
        ++ " км/ч; Потрачено ккал:" ++ fmt3 c ++ ".")

/-- `Training.__init__`: action count, duration in hours, weight in kg. -/
structure Training where
  action : ℚ
  duration : ℚ
  weight : ℚ
  deriving DecidableEq

/-- `Training.LEN_STEP = 0.65`. -/
def Training.LEN_STEP : ℚ := 65 / 100

/-- `Training.M_IN_KM = 1000`. -/
def Training.M_IN_KM : ℚ := 1000

/-- `Training.H_IN_MIN = 60`. -/
def Training.H_IN_MIN : ℚ := 60

/-- `Training.get_distance`: `self.action * self.LEN_STEP / self.M_IN_KM`. -/
def Training.get_distance (t : Training) : ℚ :=
  t.action * Training.LEN_STEP / Training.M_IN_KM

/-- `Training.get_mean_speed`: `self.get_distance() / self.duration`; a zero
duration raises `ZeroDivisionError`. -/
def Training.get_mean_speed (t : Training) : Except PyError ℚ :=
  if t.duration = 0 then .error .zeroDivisionError
  else .ok (t.get_distance / t.duration)

/-- `Training.get_spent_calories`: the body is `pass`, so the call silently
returns `None`. -/
def Training.get_spent_calories (_ : Training) : Option ℚ := none

/-- `Training.show_training_info` on a plain base `Training` instance:
`self.__class__.__name__` is the string `Training`; the calories argument is
the `None` returned by the base `get_spent_calories`. -/
def Training.show_training_info (t : Training) : Except PyError InfoMessage :=
  match t.get_mean_speed with
  | .error e => .error e
  | .ok sp => .ok ⟨"Training", t.duration, t.get_distance, sp, t.get_spent_calories⟩

/-- `class Running(Training)`: no extra fields. -/
structure Running extends Training
  deriving DecidableEq

/-- `Running.CALORIES_MEAN_SPEED_MULTIPLIER = 18`. -/
def Running.CALORIES_MEAN_SPEED_MULTIPLIER : ℚ := 18

/-- `Running.CALORIES_MEAN_SPEED_SHIFT = 1.79`. -/
def Running.CALORIES_MEAN_SPEED_SHIFT : ℚ := 179 / 100

/-- `get_distance` as inherited by `Running` (uses the base `LEN_STEP`). -/
def Running.get_distance (r : Running) : ℚ := r.toTraining.get_distance

/-- `get_mean_speed` as inherited by `Running`. -/
def Running.get_mean_speed (r : Running) : Except PyError ℚ := r.toTraining.get_mean_speed

/-- `Running.get_spent_calories`:
`(MULTIPLIER * speed + SHIFT) * weight / M_IN_KM * (duration * H_IN_MIN)`. -/
def Running.get_spent_calories (r : Running) : Except PyError ℚ :=
  match r.get_mean_speed with
  | .error e => .error e
  | .ok sp =>
      .ok ((Running.CALORIES_MEAN_SPEED_MULTIPLIER * sp + Running.CALORIES_MEAN_SPEED_SHIFT)
        * r.weight / Training.M_IN_KM * (r.duration * Training.H_IN_MIN))

/-- `class SportsWalking(Training)`: extra field `height` (cm). -/
structure SportsWalking extends Training where
  height : ℚ
  deriving DecidableEq

/-- `SportsWalking.K_1 = 0.035`. -/
def SportsWalking.K_1 : ℚ := 35 / 1000

/-- `SportsWalking.K_2 = 0.029`. -/
def SportsWalking.K_2 : ℚ := 29 / 1000

/-- `SportsWalking.KMpH_in_MpSec = round(1000 / 3600, 3)`: the km/h → m/s
conversion ratio rounded to three decimal places. -/
def SportsWalking.KMpH_in_MpSec : ℚ := (round ((1000 : ℚ) / 3600 * 1000) : ℚ) / 1000

/-- `SportsWalking.CM_IN_M = 100`. -/
def SportsWalking.CM_IN_M : ℚ := 100

/-- `get_distance` as inherited by `SportsWalking` (base `LEN_STEP`). -/
def SportsWalking.get_distance (w : SportsWalking) : ℚ := w.toTraining.get_distance

/-- `get_mean_speed` as inherited by `SportsWalking`. -/
def SportsWalking.get_mean_speed (w : SportsWalking) : Except PyError ℚ :=
  w.toTraining.get_mean_speed

/-- `SportsWalking.get_spent_calories`:
`(K_1*weight + ((speed*KMpH_in_MpSec)**2 / (height/CM_IN_M)) * K_2 * weight)
 * duration * H_IN_MIN`; a zero height makes the divisor `height/CM_IN_M`
zero and the division raises `ZeroDivisionError` (the speed, evaluated
first, may already have raised on a zero duration). -/
def SportsWalking.get_spent_calories (w : SportsWalking) : Except PyError ℚ :=
  match w.get_mean_speed with
  | .error e => .error e
  | .ok sp =>
      if w.height / SportsWalking.CM_IN_M = 0 then .error .zeroDivisionError
      else
        .ok ((SportsWalking.K_1 * w.weight
          + ((sp * SportsWalking.KMpH_in_MpSec) ^ 2 / (w.height / SportsWalking.CM_IN_M))
            * SportsWalking.K_2 * w.weight)
          * w.duration * Training.H_IN_MIN)

/-- `class Swimming(Training)`: extra fields `length_pool`, `count_pool`. -/
structure Swimming extends Training where
  length_pool : ℚ
  count_pool : ℚ
  deriving DecidableEq

/-- `Swimming.LEN_STEP = 1.38` (overrides the base constant). -/
def Swimming.LEN_STEP : ℚ := 138 / 100

/-- `Swimming.K_1 = 1.1`. -/
def Swimming.K_1 : ℚ := 11 / 10

/-- `Swimming.K_2 = 2`. -/
def Swimming.K_2 : ℚ := 2

/-- `get_distance` as inherited by `Swimming`: the inherited body reads
`self.LEN_STEP`, which dynamic dispatch resolves to the overridden 1.38. -/
def Swimming.get_distance (s : Swimming) : ℚ :=
  s.action * Swimming.LEN_STEP / Training.M_IN_KM

/-- `Swimming.get_mean_speed` (overrides the base formula):
`length_pool * count_pool / M_IN_KM / duration`. -/
def Swimming.get_mean_speed (s : Swimming) : Except PyError ℚ :=
  if s.duration = 0 then .error .zeroDivisionError
  else .ok (s.length_pool * s.count_pool / Training.M_IN_KM / s.duration)

/-- `Swimming.get_spent_calories`:
`(speed + K_1) * K_2 * weight * duration`. -/
def Swimming.get_spent_calories (s : Swimming) : Except PyError ℚ :=
  match s.get_mean_speed with
  | .error e => .error e
  | .ok sp => .ok ((sp + Swimming.K_1) * Swimming.K_2 * s.weight * s.duration)

/-- The object returned by a successful dispatch: one of the three
constructible workout classes. -/
inductive TrainingObj where
  | swm : Swimming → TrainingObj
  | run : Running → TrainingObj
  | wlk : SportsWalking → TrainingObj
  deriving DecidableEq

/-- `read_package`: looks the workout-type code up in
`{SWM: Swimming, RUN: Running, WLK: SportsWalking}` with `dict.get` and
calls the result on the unpacked data list.  An unknown code makes
`dict.get` return `None`, and calling `None` raises the opaque
`TypeError: NoneType object is not callable`; a data list whose length does
not match the constructor arity raises an arity `TypeError`. -/
def read_package (workout_type : String) (data : List ℚ) : Except PyError TrainingObj :=
  if workout_type = "SWM" then
    match data with
    | [a, d, w, l, c] => .ok (.swm ⟨⟨a, d, w⟩, l, c⟩)
    | _ => .error .arityTypeError
  else if workout_type = "RUN" then
    match data with
    | [a, d, w] => .ok (.run ⟨⟨a, d, w⟩⟩)
    | _ => .error .arityTypeError
  else if workout_type = "WLK" then
    match data with
    | [a, d, w, h] => .ok (.wlk ⟨⟨a, d, w⟩, h⟩)
    | _ => .error .arityTypeError
  else .error .noneNotCallable

/-- Claim C1.  The claim demands that dispatching an unknown type code
produce a reported, descriptive error such as "unknown activity type code".
The code instead calls the `None` returned by `dict.get`, raising the opaque
`TypeError: NoneType object is not callable`, which carries no diagnostic
about the type code: evaluating `read_package` at the unknown code "XYZ"
yields exactly that opaque error. -/
theorem spec_C1_unknown_code_opaque :
    read_package "XYZ" [1, 2, 3] = Except.error PyError.noneNotCallable := by
  rfl

/-- Claim C2, counterexample.  The claim says an activity record with zero
duration is rejected by input validation with a descriptive error.  In fact
`read_package` happily constructs the record (no validation anywhere), and
the failure only occurs later, inside the speed computation, as a bare
division-by-zero error. -/
theorem spec_C2_no_validation :
    read_package "RUN" [15000, 0, 75] = Except.ok (TrainingObj.run ⟨⟨15000, 0, 75⟩⟩) ∧
    Running.get_mean_speed ⟨⟨15000, 0, 75⟩⟩ = Except.error PyError.zeroDivisionError := by
  constructor
  · rfl
  · rfl

/-- Claim C2, amended.  The code performs no input validation: a zero
duration (or, for walking, a zero height) makes the corresponding division
raise an uncaught `ZeroDivisionError` when the speed or calorie computation
runs — so no non-finite value is silently propagated — and under the
preconditions `duration ≠ 0` (and `height ≠ 0` for walking) every division
succeeds and no division-by-zero branch is reachable. -/
theorem spec_C2_division_behaviour :
    (∀ t : Training, t.duration = 0 →
      t.get_mean_speed = Except.error PyError.zeroDivisionError) ∧
    (∀ w : SportsWalking, w.duration ≠ 0 → w.height = 0 →
      w.get_spent_calories = Except.error PyError.zeroDivisionError) ∧
    (∀ t : Training, t.duration ≠ 0 → ∃ v, t.get_mean_speed = Except.ok v) ∧
    (∀ w : SportsWalking, w.duration ≠ 0 → w.height ≠ 0 →
      ∃ v, w.get_spent_calories = Except.ok v) ∧
    (∀ r : Running, r.duration ≠ 0 → ∃ v, r.get_spent_calories = Except.ok v) ∧
    (∀ s : Swimming, s.duration ≠ 0 →
      (∃ v, s.get_mean_speed = Except.ok v) ∧ ∃ v, s.get_spent_calories = Except.ok v) := by
  refine ⟨?_, ?_, ?_, ?_, ?_, ?_⟩
  · intro t h
    simp [Training.get_mean_speed, h]
  · intro w hd hh
    simp [SportsWalking.get_spent_calories, SportsWalking.get_mean_speed,
      Training.get_mean_speed, hd, hh, SportsWalking.CM_IN_M]
  · intro t h
    exact ⟨t.get_distance / t.duration, by simp [Training.get_mean_speed, h]⟩
  · intro w hd hh
    have hcm : ¬ w.height / SportsWalking.CM_IN_M = 0 := by
      rw [SportsWalking.CM_IN_M, div_eq_zero_iff]
      push_neg
      exact ⟨hh, by norm_num⟩
    simp only [SportsWalking.get_spent_calories, SportsWalking.get_mean_speed,
      Training.get_mean_speed, if_neg hd, if_neg hcm]
    exact ⟨_, rfl⟩
  · intro r h
    simp only [Running.get_spent_calories, Running.get_mean_speed,
      Training.get_mean_speed, if_neg h]
    exact ⟨_, rfl⟩
  · intro s h
    constructor
    · simp only [Swimming.get_mean_speed, if_neg h]
      exact ⟨_, rfl⟩
    · simp only [Swimming.get_spent_calories, Swimming.get_mean_speed, if_neg h]
      exact ⟨_, rfl⟩

/-- Claim C2, witness for the amended theorem at concrete inputs. -/
theorem spec_C2_division_behaviour_witness :
    Training.get_mean_speed ⟨720, 0, 80⟩ = Except.error PyError.zeroDivisionError ∧
    SportsWalking.get_spent_calories ⟨⟨9000, 1, 75⟩, 0⟩ = Except.error PyError.zeroDivisionError ∧
    (∃ v, Training.get_mean_speed ⟨15000, 1, 75⟩ = Except.ok v) ∧
    (∃ v, SportsWalking.get_spent_calories ⟨⟨9000, 1, 75⟩, 180⟩ = Except.ok v) ∧
    (∃ v, Running.get_spent_calories ⟨⟨15000, 1, 75⟩⟩ = Except.ok v) ∧
    ((∃ v, Swimming.get_mean_speed ⟨⟨720, 1, 80⟩, 25, 40⟩ = Except.ok v) ∧
      ∃ v, Swimming.get_spent_calories ⟨⟨720, 1, 80⟩, 25, 40⟩ = Except.ok v) :=
  ⟨spec_C2_division_behaviour.1 ⟨720, 0, 80⟩ rfl,
   spec_C2_division_behaviour.2.1 ⟨⟨9000, 1, 75⟩, 0⟩ (by norm_num) rfl,
   spec_C2_division_behaviour.2.2.1 ⟨15000, 1, 75⟩ (by norm_num),
   spec_C2_division_behaviour.2.2.2.1 ⟨⟨9000, 1, 75⟩, 180⟩ (by norm_num) (by norm_num),
   spec_C2_division_behaviour.2.2.2.2.1 ⟨⟨15000, 1, 75⟩⟩ (by norm_num),
   spec_C2_division_behaviour.2.2.2.2.2 ⟨⟨720, 1, 80⟩, 25, 40⟩ (by norm_num)⟩

/-- Claim C3.  For every swimming activity with non-zero duration, the mean
speed is `length_pool * count_pool / 1000 / duration` and the calories are
`(speed + 1.1) * 2 * weight * duration`; at the sample input
(action 720, duration 1 h, weight 80 kg, pool 25 m, 40 laps) the speed is
exactly 1 km/h and the calories exactly 336. -/
theorem spec_C3_swimming_formulas :
    (∀ s : Swimming, s.duration ≠ 0 →
      s.get_mean_speed = Except.ok (s.length_pool * s.count_pool / 1000 / s.duration) ∧
      s.get_spent_calories =
        Except.ok ((s.length_pool * s.count_pool / 1000 / s.duration + 11 / 10)
          * 2 * s.weight * s.duration)) ∧
    Swimming.get_mean_speed ⟨⟨720, 1, 80⟩, 25, 40⟩ = Except.ok 1 ∧
    Swimming.get_spent_calories ⟨⟨720, 1, 80⟩, 25, 40⟩ = Except.ok 336 := by
  refine ⟨?_, ?_, ?_⟩
  · intro s h
    constructor
    · simp [Swimming.get_mean_speed, h, Training.M_IN_KM]
    · simp [Swimming.get_spent_calories, Swimming.get_mean_speed, h,
        Training.M_IN_KM, Swimming.K_1, Swimming.K_2]
  · norm_num [Swimming.get_mean_speed, Training.M_IN_KM]
  · norm_num [Swimming.get_spent_calories, Swimming.get_mean_speed,
      Training.M_IN_KM, Swimming.K_1, Swimming.K_2]

/-- Claim C3, witness at the sample swimming input. -/
theorem spec_C3_swimming_formulas_witness :
    Swimming.get_mean_speed ⟨⟨720, 1, 80⟩, 25, 40⟩ = Except.ok (25 * 40 / 1000 / 1) ∧
    Swimming.get_spent_calories ⟨⟨720, 1, 80⟩, 25, 40⟩ =
      Except.ok ((25 * 40 / 1000 / 1 + 11 / 10) * 2 * 80 * 1) :=
  spec_C3_swimming_formulas.1 ⟨⟨720, 1, 80⟩, 25, 40⟩ (by norm_num)

/-- Claim C4.  For every running activity with non-zero duration the mean
speed is the base formula `distance / duration` and the calories are
`(18 * speed + 1.79) * weight / 1000 * (duration * 60)`; at the sample
input (action 15000, duration 1 h, weight 75 kg) the speed is 9.75 km/h and
the calories equal `(18 * 9.75 + 1.79) * 75 / 1000 * 60` exactly. -/
theorem spec_C4_running_formulas :
    (∀ r : Running, r.duration ≠ 0 →
      r.get_mean_speed = Except.ok (r.get_distance / r.duration) ∧
      r.get_spent_calories =
        Except.ok ((18 * (r.get_distance / r.duration) + 179 / 100)
          * r.weight / 1000 * (r.duration * 60))) ∧
    Running.get_mean_speed ⟨⟨15000, 1, 75⟩⟩ = Except.ok (975 / 100) ∧
    Running.get_spent_calories ⟨⟨15000, 1, 75⟩⟩ =
      Except.ok ((18 * (975 / 100) + 179 / 100) * 75 / 1000 * 60) := by
  refine ⟨?_, ?_, ?_⟩
  · intro r h
    constructor
    · simp [Running.get_mean_speed, Training.get_mean_speed, Running.get_distance, h]
    · simp [Running.get_spent_calories, Running.get_mean_speed, Training.get_mean_speed,
        Running.get_distance, h, Running.CALORIES_MEAN_SPEED_MULTIPLIER,
        Running.CALORIES_MEAN_SPEED_SHIFT, Training.M_IN_KM, Training.H_IN_MIN]
  · norm_num [Running.get_mean_speed, Training.get_mean_speed, Training.get_distance,
      Training.LEN_STEP, Training.M_IN_KM]
  · norm_num [Running.get_spent_calories, Running.get_mean_speed, Training.get_mean_speed,
      Training.get_distance, Training.LEN_STEP, Training.M_IN_KM, Training.H_IN_MIN,
      Running.CALORIES_MEAN_SPEED_MULTIPLIER, Running.CALORIES_MEAN_SPEED_SHIFT]

/-- Claim C4, witness at the sample running input. -/
theorem spec_C4_running_formulas_witness :
    Running.get_mean_speed ⟨⟨15000, 1, 75⟩⟩ =
      Except.ok (Running.get_distance ⟨⟨15000, 1, 75⟩⟩ / 1) ∧
    Running.get_spent_calories ⟨⟨15000, 1, 75⟩⟩ =
      Except.ok ((18 * (Running.get_distance ⟨⟨15000, 1, 75⟩⟩ / 1) + 179 / 100)
        * 75 / 1000 * (1 * 60)) :=
  spec_C4_running_formulas.1 ⟨⟨15000, 1, 75⟩⟩ (by norm_num)

/-- Claim C5.  The walking conversion constant is exactly 0.278 — the value
of `round(1000/3600, 3)` — and not the unrounded ratio 1000/3600; for every
walking activity with non-zero duration and height, the calories are
`(0.035*weight + ((speed*0.278)^2 / (height/100)) * 0.029 * weight)
 * duration * 60`, where the speed is the base (unoverridden) formula
`distance / duration`. -/
theorem spec_C5_walking_formula :
    SportsWalking.KMpH_in_MpSec = 278 / 1000 ∧
    SportsWalking.KMpH_in_MpSec ≠ (1000 : ℚ) / 3600 ∧
    (∀ w : SportsWalking, w.duration ≠ 0 → w.height ≠ 0 →
      w.get_spent_calories =
        Except.ok ((35 / 1000 * w.weight
          + ((w.get_distance / w.duration * (278 / 1000)) ^ 2 / (w.height / 100))
            * (29 / 1000) * w.weight)
          * w.duration * 60)) := by
  have hfloor : ⌊(5009 / 18 : ℚ)⌋ = 278 := by
    rw [Int.floor_eq_iff]
    norm_num
  have hK : SportsWalking.KMpH_in_MpSec = 278 / 1000 := by
    rw [SportsWalking.KMpH_in_MpSec, round_eq,
      show (1000 : ℚ) / 3600 * 1000 + 1 / 2 = 5009 / 18 by norm_num, hfloor]
    norm_num
  refine ⟨hK, ?_, ?_⟩
  · rw [hK]
    norm_num
  · intro w hd hh
    have hcm : ¬ w.height / (100 : ℚ) = 0 := by
      rw [div_eq_zero_iff]
      push_neg
      exact ⟨hh, by norm_num⟩
    simp only [SportsWalking.get_spent_calories, SportsWalking.get_mean_speed,
      Training.get_mean_speed, SportsWalking.K_1, SportsWalking.K_2,
      SportsWalking.CM_IN_M, Training.H_IN_MIN, SportsWalking.get_distance, hK,
      if_neg hd, if_neg hcm]

/-- Claim C5, witness at the sample walking input
(action 9000, duration 1 h, weight 75 kg, height 180 cm). -/
theorem spec_C5_walking_formula_witness :
    SportsWalking.get_spent_calories ⟨⟨9000, 1, 75⟩, 180⟩ =
      Except.ok ((35 / 1000 * 75
        + ((SportsWalking.get_distance ⟨⟨9000, 1, 75⟩, 180⟩ / 1 * (278 / 1000)) ^ 2
            / (180 / 100)) * (29 / 1000) * 75)
        * 1 * 60) :=
  spec_C5_walking_formula.2.2 ⟨⟨9000, 1, 75⟩, 180⟩ (by norm_num) (by norm_num)

/-- Claim C6.  For every activity record, the distance in km is
`action * LEN_STEP / 1000`, with step length 0.65 for running and walking
and 1.38 for swimming. -/
theorem spec_C6_distance_formula :
    (∀ r : Running, r.get_distance = r.action * (65 / 100) / 1000) ∧
    (∀ w : SportsWalking, w.get_distance = w.action * (65 / 100) / 1000) ∧
    (∀ s : Swimming, s.get_distance = s.action * (138 / 100) / 1000) := by
  refine ⟨?_, ?_, ?_⟩
  · intro r
    simp [Running.get_distance, Training.get_distance, Training.LEN_STEP, Training.M_IN_KM]
  · intro w
    simp [SportsWalking.get_distance, Training.get_distance, Training.LEN_STEP,
      Training.M_IN_KM]
  · intro s
    simp [Swimming.get_distance, Swimming.LEN_STEP, Training.M_IN_KM]

/-- Claim C7.  With non-zero duration, running and walking use the default
mean-speed formula `distance / duration`, while swimming overrides it with
the pool formula `length_pool * count_pool / 1000 / duration`; at the sample
swimming input the overridden result (1 km/h) differs from what the base
formula would give, so the override is real. -/
theorem spec_C7_mean_speed_dispatch :
    (∀ r : Running, r.duration ≠ 0 →
      r.get_mean_speed = Except.ok (r.get_distance / r.duration)) ∧
    (∀ w : SportsWalking, w.duration ≠ 0 →
      w.get_mean_speed = Except.ok (w.get_distance / w.duration)) ∧
    (∀ s : Swimming, s.duration ≠ 0 →
      s.get_mean_speed = Except.ok (s.length_pool * s.count_pool / 1000 / s.duration)) ∧
    Swimming.get_mean_speed ⟨⟨720, 1, 80⟩, 25, 40⟩ ≠
      Except.ok (Swimming.get_distance ⟨⟨720, 1, 80⟩, 25, 40⟩ / 1) := by
  refine ⟨?_, ?_, ?_, ?_⟩
  · intro r h
    simp [Running.get_mean_speed, Training.get_mean_speed, Running.get_distance, h]
  · intro w h
    simp [SportsWalking.get_mean_speed, Training.get_mean_speed,
      SportsWalking.get_distance, h]
  · intro s h
    simp [Swimming.get_mean_speed, Training.M_IN_KM, h]
  · norm_num [Swimming.get_mean_speed, Swimming.get_distance, Swimming.LEN_STEP,
      Training.M_IN_KM]

/-- Claim C7, witness at the three sample inputs. -/
theorem spec_C7_mean_speed_dispatch_witness :
    Running.get_mean_speed ⟨⟨15000, 1, 75⟩⟩ =
      Except.ok (Running.get_distance ⟨⟨15000, 1, 75⟩⟩ / 1) ∧
    SportsWalking.get_mean_speed ⟨⟨9000, 1, 75⟩, 180⟩ =
      Except.ok (SportsWalking.get_distance ⟨⟨9000, 1, 75⟩, 180⟩ / 1) ∧
    Swimming.get_mean_speed ⟨⟨720, 1, 80⟩, 25, 40⟩ = Except.ok (25 * 40 / 1000 / 1) :=
  ⟨spec_C7_mean_speed_dispatch.1 ⟨⟨15000, 1, 75⟩⟩ (by norm_num),
   spec_C7_mean_speed_dispatch.2.1 ⟨⟨9000, 1, 75⟩, 180⟩ (by norm_num),
   spec_C7_mean_speed_dispatch.2.2.1 ⟨⟨720, 1, 80⟩, 25, 40⟩ (by norm_num)⟩

/-- Claim C8.  Formatting a summary is deterministic (equal summaries give
identical strings), every numeric field shows exactly three digits after
the decimal point, and the message lays the fields out in the fixed order
name, duration, distance, speed, calories. -/
theorem spec_C8_formatting :
    (∀ m₁ m₂ : InfoMessage, m₁ = m₂ → m₁.get_message = m₂.get_message) ∧
    (∀ q : ℚ, (frac3 q).length = 3) ∧
    (∀ m : InfoMessage, ∀ c : ℚ, m.calories = some c →
      m.get_message =
        Except.ok ("Тип тренировки: " ++ m.training_type ++ "; Длительность:"
          ++ fmt3 m.duration ++ " ч.; Дистанция:" ++ fmt3 m.distance
          ++ " км; Ср. скорость:" ++ fmt3 m.speed
          ++ " км/ч; Потрачено ккал:" ++ fmt3 c ++ ".")) := by
  refine ⟨?_, ?_, ?_⟩
  · intro m₁ m₂ h
    rw [h]
  · intro q
    rfl
  · intro m c h
    simp [InfoMessage.get_message, h]

/-- Claim C8, witness at a concrete summary. -/
theorem spec_C8_formatting_witness :
    InfoMessage.get_message ⟨"Running", 1, 39 / 4, 39 / 4, some 2⟩ =
      InfoMessage.get_message ⟨"Running", 1, 39 / 4, 39 / 4, some 2⟩ ∧
    InfoMessage.get_message ⟨"Running", 1, 39 / 4, 39 / 4, some 2⟩ =
      Except.ok ("Тип тренировки: " ++ "Running" ++ "; Длительность:"
        ++ fmt3 1 ++ " ч.; Дистанция:" ++ fmt3 (39 / 4)
        ++ " км; Ср. скорость:" ++ fmt3 (39 / 4)
        ++ " км/ч; Потрачено ккал:" ++ fmt3 2 ++ ".") :=
  ⟨spec_C8_formatting.1 ⟨"Running", 1, 39 / 4, 39 / 4, some 2⟩
      ⟨"Running", 1, 39 / 4, 39 / 4, some 2⟩ rfl,
   spec_C8_formatting.2.2 ⟨"Running", 1, 39 / 4, 39 / 4, some 2⟩ 2 rfl⟩

/-- Claim C9.  With non-negative action count (and, for swimming,
non-negative pool length and lap count) and positive duration, every
variant's distance and mean speed are non-negative. -/
theorem spec_C9_nonneg :
    (∀ r : Running, 0 ≤ r.action → 0 < r.duration →
      0 ≤ r.get_distance ∧ ∃ v, r.get_mean_speed = Except.ok v ∧ 0 ≤ v) ∧
    (∀ w : SportsWalking, 0 ≤ w.action → 0 < w.duration →
      0 ≤ w.get_distance ∧ ∃ v, w.get_mean_speed = Except.ok v ∧ 0 ≤ v) ∧
    (∀ s : Swimming, 0 ≤ s.action → 0 ≤ s.length_pool → 0 ≤ s.count_pool →
      0 < s.duration →
      0 ≤ s.get_distance ∧ ∃ v, s.get_mean_speed = Except.ok v ∧ 0 ≤ v) := by
  refine ⟨?_, ?_, ?_⟩
  · intro r ha hd
    have hdist : 0 ≤ r.get_distance := by
      simp only [Running.get_distance, Training.get_distance, Training.LEN_STEP,
        Training.M_IN_KM]
      exact div_nonneg (mul_nonneg ha (by norm_num)) (by norm_num)
    refine ⟨hdist, r.toTraining.get_distance / r.duration, ?_, div_nonneg hdist hd.le⟩
    simp [Running.get_mean_speed, Training.get_mean_speed, hd.ne']
  · intro w ha hd
    have hdist : 0 ≤ w.get_distance := by
      simp only [SportsWalking.get_distance, Training.get_distance, Training.LEN_STEP,
        Training.M_IN_KM]
      exact div_nonneg (mul_nonneg ha (by norm_num)) (by norm_num)
    refine ⟨hdist, w.toTraining.get_distance / w.duration, ?_, div_nonneg hdist hd.le⟩
    simp [SportsWalking.get_mean_speed, Training.get_mean_speed, hd.ne']
  · intro s ha hl hc hd
    have hdist : 0 ≤ s.get_distance := by
      simp only [Swimming.get_distance, Swimming.LEN_STEP, Training.M_IN_KM]
      exact div_nonneg (mul_nonneg ha (by norm_num)) (by norm_num)
    refine ⟨hdist, s.length_pool * s.count_pool / Training.M_IN_KM / s.duration, ?_, ?_⟩
    · simp [Swimming.get_mean_speed, hd.ne']
    · refine div_nonneg (div_nonneg (mul_nonneg hl hc) ?_) hd.le
      norm_num [Training.M_IN_KM]

/-- Claim C9, witness at the three sample inputs. -/
theorem spec_C9_nonneg_witness :
    (0 ≤ Running.get_distance ⟨⟨15000, 1, 75⟩⟩ ∧
      ∃ v, Running.get_mean_speed ⟨⟨15000, 1, 75⟩⟩ = Except.ok v ∧ 0 ≤ v) ∧
    (0 ≤ SportsWalking.get_distance ⟨⟨9000, 1, 75⟩, 180⟩ ∧
      ∃ v, SportsWalking.get_mean_speed ⟨⟨9000, 1, 75⟩, 180⟩ = Except.ok v ∧ 0 ≤ v) ∧
    (0 ≤ Swimming.get_distance ⟨⟨720, 1, 80⟩, 25, 40⟩ ∧
      ∃ v, Swimming.get_mean_speed ⟨⟨720, 1, 80⟩, 25, 40⟩ = Except.ok v ∧ 0 ≤ v) :=
  ⟨spec_C9_nonneg.1 ⟨⟨15000, 1, 75⟩⟩ (by norm_num) (by norm_num),
   spec_C9_nonneg.2.1 ⟨⟨9000, 1, 75⟩, 180⟩ (by norm_num) (by norm_num),
   spec_C9_nonneg.2.2 ⟨⟨720, 1, 80⟩, 25, 40⟩ (by norm_num) (by norm_num) (by norm_num)
     (by norm_num)⟩

/-- Claim C10.  The base `get_spent_calories` silently returns `None`
(no error signal); with non-zero duration, `show_training_info` on a plain
base `Training` succeeds and builds an `InfoMessage` whose calories field is
`None`; only a later `get_message` call on such a message fails, when the
format spec is applied to `None`. -/
theorem spec_C10_base_calories_none :
    (∀ t : Training, t.get_spent_calories = none) ∧
    (∀ t : Training, t.duration ≠ 0 →
      t.show_training_info =
        Except.ok ⟨"Training", t.duration, t.get_distance, t.get_distance / t.duration,
          none⟩) ∧
    (∀ m : InfoMessage, m.calories = none →
      m.get_message = Except.error PyError.formatNoneTypeError) := by
  refine ⟨?_, ?_, ?_⟩
  · intro t
    rfl
  · intro t h
    simp [Training.show_training_info, Training.get_mean_speed, Training.get_spent_calories, h]
  · intro m h
    simp [InfoMessage.get_message, h]

/-- Claim C10, witness at a concrete base training and its message. -/
theorem spec_C10_base_calories_none_witness :
    Training.show_training_info ⟨720, 1, 80⟩ =
      Except.ok ⟨"Training", 1, Training.get_distance ⟨720, 1, 80⟩,
        Training.get_distance ⟨720, 1, 80⟩ / 1, none⟩ ∧
    InfoMessage.get_message ⟨"Training", 1, 1, 1, none⟩ =
      Except.error PyError.formatNoneTypeError :=
  ⟨spec_C10_base_calories_none.2.1 ⟨720, 1, 80⟩ (by norm_num),
   spec_C10_base_calories_none.2.2 ⟨"Training", 1, 1, 1, none⟩ rfl⟩

end FitnessTracker
